import Mathlib

/-!
Shallow embedding of the Horizon Gaming settlement-reconciliation engine
(`src/pipeline/config.py`, `src/pipeline/fees.py`, `src/pipeline/reconcile.py`).

Numeric dataframe cells are modelled by `PVal`: a rational number, one of the
two IEEE infinities, or NaN.  In pandas a missing value in a float column is
NaN, so `PVal.nan` plays the role of a null cell and `pd.isna` becomes
`PVal.isna`.  Finite float arithmetic is idealised as exact rational
arithmetic; the IEEE special-value rules (NaN propagation, division of a
nonzero number by zero giving a signed infinity, `0/0` giving NaN, NaN
comparing false under `<`) are kept, because the reconciliation code relies
on them.  Timestamps are rationals measured in days, so that
`(settlement_date - timestamp).dt.days` becomes an integer floor.
-/

/-- Value of a numeric dataframe cell: finite rational, ±infinity, or NaN. -/
inductive PVal where
  | num (q : ℚ)
  | inf
  | neginf
  | nan
deriving DecidableEq, Repr

/-- Embedding of `pd.isna` on a float cell: only NaN is missing. -/
def PVal.isna : PVal → Bool
  | .nan => true
  | _ => false

/-- Embedding of `Series.notna`. -/
def PVal.notna (v : PVal) : Bool := !v.isna

/-- IEEE subtraction on cell values (exact on finite operands). -/
def PVal.sub : PVal → PVal → PVal
  | .num a, .num b => .num (a - b)
  | .num _, .inf => .neginf
  | .num _, .neginf => .inf
  | .num _, .nan => .nan
  | .inf, .num _ => .inf
  | .inf, .inf => .nan
  | .inf, .neginf => .inf
  | .inf, .nan => .nan
  | .neginf, .num _ => .neginf
  | .neginf, .inf => .neginf
  | .neginf, .neginf => .nan
  | .neginf, .nan => .nan
  | .nan, _ => .nan

/-- IEEE division on cell values.  A zero divisor is the positive zero that
numpy produces here, so a nonzero finite dividend gives a signed infinity and
`0/0` gives NaN — this is exactly what `np.where`-guarded Series division
does in `calculate_discrepancies`. -/
def PVal.div : PVal → PVal → PVal
  | .num a, .num b =>
      if b = 0 then (if 0 < a then .inf else if a < 0 then .neginf else .nan)
      else .num (a / b)
  | .num _, .inf => .num 0
  | .num _, .neginf => .num 0
  | .num _, .nan => .nan
  | .inf, .num b => if 0 ≤ b then .inf else .neginf
  | .inf, .inf => .nan
  | .inf, .neginf => .nan
  | .inf, .nan => .nan
  | .neginf, .num b => if 0 ≤ b then .neginf else .inf
  | .neginf, .inf => .nan
  | .neginf, .neginf => .nan
  | .neginf, .nan => .nan
  | .nan, _ => .nan

/-- IEEE multiplication on cell values (exact on finite operands). -/
def PVal.mul : PVal → PVal → PVal
  | .num a, .num b => .num (a * b)
  | .num a, .inf => if 0 < a then .inf else if a < 0 then .neginf else .nan
  | .num a, .neginf => if 0 < a then .neginf else if a < 0 then .inf else .nan
  | .num _, .nan => .nan
  | .inf, .num b => if 0 < b then .inf else if b < 0 then .neginf else .nan
  | .inf, .inf => .inf
  | .inf, .neginf => .neginf
  | .inf, .nan => .nan
  | .neginf, .num b => if 0 < b then .neginf else if b < 0 then .inf else .nan
  | .neginf, .inf => .neginf
  | .neginf, .neginf => .inf
  | .neginf, .nan => .nan
  | .nan, _ => .nan

/-- Embedding of Python `abs` on a cell value. -/
def PVal.abs : PVal → PVal
  | .num a => .num |a|
  | .inf => .inf
  | .neginf => .inf
  | .nan => .nan

/-- IEEE strict comparison `a < b`; any comparison with NaN is false. -/
def PVal.ltB : PVal → PVal → Bool
  | .num a, .num b => decide (a < b)
  | .num _, .inf => true
  | .num _, .neginf => false
  | .num _, .nan => false
  | .inf, _ => false
  | .neginf, .num _ => true
  | .neginf, .inf => true
  | .neginf, .neginf => false
  | .neginf, .nan => false
  | .nan, _ => false

/-- Fee parameters of `config.py` (`Config.CARD_FEE_PERCENT` …), read from the
environment with the documented defaults; modelled as an explicit record. -/
structure Config where
  CARD_FEE_PERCENT : ℚ
  CARD_FEE_FIXED : ℚ
  BANK_FEE_PERCENT : ℚ
  VOUCHER_FEE_PERCENT : ℚ
deriving DecidableEq, Repr

/-- Default fee schedule: 2.9 % + $0.30 for cards, 1.5 % bank, 3.5 % voucher. -/
def Config.default : Config := ⟨29/10, 3/10, 3/2, 7/2⟩

/-- Hard-coded `Config.CARD_SETTLEMENT_MIN`. -/
def Config.CARD_SETTLEMENT_MIN : ℕ := 2
/-- Hard-coded `Config.CARD_SETTLEMENT_MAX`. -/
def Config.CARD_SETTLEMENT_MAX : ℕ := 3
/-- Hard-coded `Config.CARD_SETTLEMENT_THRESHOLD`. -/
def Config.CARD_SETTLEMENT_THRESHOLD : ℕ := 5
/-- Hard-coded `Config.BANK_SETTLEMENT_MIN`. -/
def Config.BANK_SETTLEMENT_MIN : ℕ := 5
/-- Hard-coded `Config.BANK_SETTLEMENT_MAX`. -/
def Config.BANK_SETTLEMENT_MAX : ℕ := 7
/-- Hard-coded `Config.BANK_SETTLEMENT_THRESHOLD`. -/
def Config.BANK_SETTLEMENT_THRESHOLD : ℕ := 10
/-- Hard-coded `Config.VOUCHER_SETTLEMENT_MIN`. -/
def Config.VOUCHER_SETTLEMENT_MIN : ℕ := 3
/-- Hard-coded `Config.VOUCHER_SETTLEMENT_MAX`. -/
def Config.VOUCHER_SETTLEMENT_MAX : ℕ := 5
/-- Hard-coded `Config.VOUCHER_SETTLEMENT_THRESHOLD`. -/
def Config.VOUCHER_SETTLEMENT_THRESHOLD : ℕ := 8

/-- Embedding of `Config.get_settlement_timing`: the dictionary lookup with
fallback `(2, 5, 7)` for an unrecognised payment method. -/
def Config.get_settlement_timing (payment_method : String) : ℕ × ℕ × ℕ :=
  if payment_method = "credit_card" then
    (Config.CARD_SETTLEMENT_MIN, Config.CARD_SETTLEMENT_MAX, Config.CARD_SETTLEMENT_THRESHOLD)
  else if payment_method = "debit_card" then
    (Config.CARD_SETTLEMENT_MIN, Config.CARD_SETTLEMENT_MAX, Config.CARD_SETTLEMENT_THRESHOLD)
  else if payment_method = "bank_transfer" then
    (Config.BANK_SETTLEMENT_MIN, Config.BANK_SETTLEMENT_MAX, Config.BANK_SETTLEMENT_THRESHOLD)
  else if payment_method = "cash_voucher" then
    (Config.VOUCHER_SETTLEMENT_MIN, Config.VOUCHER_SETTLEMENT_MAX, Config.VOUCHER_SETTLEMENT_THRESHOLD)
  else (2, 5, 7)

/-- Embedding of `fees.calculate_card_fee`: `amount * CARD_FEE_PERCENT / 100 + CARD_FEE_FIXED`. -/
def calculate_card_fee (cfg : Config) (amount : ℚ) : ℚ :=
  amount * cfg.CARD_FEE_PERCENT / 100 + cfg.CARD_FEE_FIXED

/-- Embedding of `fees.calculate_bank_fee`: `amount * BANK_FEE_PERCENT / 100`. -/
def calculate_bank_fee (cfg : Config) (amount : ℚ) : ℚ :=
  amount * cfg.BANK_FEE_PERCENT / 100

/-- Embedding of `fees.calculate_voucher_fee`: `amount * VOUCHER_FEE_PERCENT / 100`. -/
def calculate_voucher_fee (cfg : Config) (amount : ℚ) : ℚ :=
  amount * cfg.VOUCHER_FEE_PERCENT / 100

/-- Embedding of `fees.calculate_fee`: route on the payment method, with the
card schedule as the default for unknown methods. -/
def calculate_fee (cfg : Config) (amount : ℚ) (payment_method : String) : ℚ :=
  if payment_method = "credit_card" ∨ payment_method = "debit_card" then
    calculate_card_fee cfg amount
  else if payment_method = "bank_transfer" then
    calculate_bank_fee cfg amount
  else if payment_method = "cash_voucher" then
    calculate_voucher_fee cfg amount
  else
    calculate_card_fee cfg amount

/-- Embedding of `fees.calculate_expected_settlement`: amount minus fee. -/
def calculate_expected_settlement (cfg : Config) (amount : ℚ) (payment_method : String) : ℚ :=
  amount - calculate_fee cfg amount payment_method

/-- Input transaction row (schema of `transactions.csv`); the timestamp is a
rational number of days. -/
structure Transaction where
  transaction_id : String
  timestamp : ℚ
  amount : ℚ
  currency : String
  status : String
  provider : String
  payment_method : String
  country : String
  customer_id : String
deriving DecidableEq, Repr

/-- Input settlement row (schema of `settlements.csv`); `settled_amount` is a
float cell and may therefore be NaN (missing). -/
structure Settlement where
  settlement_id : String
  transaction_id : String
  settlement_date : ℚ
  settled_amount : PVal
  currency : String
  provider : String
deriving DecidableEq, Repr

/-- Transaction row after `calculate_expected_amounts` added the
`expected_settled_amount` column. -/
structure ExpTransaction extends Transaction where
  expected_settled_amount : ℚ
deriving DecidableEq, Repr

/-- Row of the reconciled dataframe.  `match_settlements_exact` creates the
row; the columns added by the later stages start out as missing
(NaN / `none` / `false` / `""`), exactly like columns that do not exist yet. -/
structure ReconciledRecord extends ExpTransaction where
  settlement_id : Option String
  settlement_date : Option ℚ
  settled_amount : PVal
  actual_settled_amount : PVal
  discrepancy_amount : PVal
  discrepancy_percent : PVal
  days_to_settle : PVal
  settlement_threshold : ℕ
  timing_anomaly : Bool
  settlement_status : String
deriving DecidableEq, Repr

/-- Ghost-settlement row: a settlement plus the `anomaly_type` tag column. -/
structure GhostSettlement extends Settlement where
  anomaly_type : String
deriving DecidableEq, Repr

/-- Embedding of `calculate_expected_amounts`: add the
`expected_settled_amount` column via `calculate_expected_settlement`. -/
def calculate_expected_amounts (cfg : Config) (transactions_df : List Transaction) :
    List ExpTransaction :=
  transactions_df.map (fun t =>
    { toTransaction := t
      expected_settled_amount := calculate_expected_settlement cfg t.amount t.payment_method })

/-- Row produced by the left merge for one transaction: the settlement-side
fields are copied from the matched settlement, or missing when there is none;
the settlement's own `provider`/`currency` columns are dropped. -/
def mkReconciled (t : ExpTransaction) (s : Option Settlement) : ReconciledRecord :=
  { toExpTransaction := t
    settlement_id := s.map (fun x => x.settlement_id)
    settlement_date := s.map (fun x => x.settlement_date)
    settled_amount := match s with
      | some x => x.settled_amount
      | none => PVal.nan
    actual_settled_amount := PVal.nan
    discrepancy_amount := PVal.nan
    discrepancy_percent := PVal.nan
    days_to_settle := PVal.nan
    settlement_threshold := 0
    timing_anomaly := false
    settlement_status := "" }

/-- Embedding of `match_settlements_exact`: a pandas left merge on
`transaction_id`.  A left row with no right match yields one row with missing
settlement fields; otherwise one output row per matching settlement. -/
def match_settlements_exact (transactions_df : List ExpTransaction)
    (settlements_df : List Settlement) : List ReconciledRecord :=
  transactions_df.flatMap (fun t =>
    match settlements_df.filter (fun s => s.transaction_id == t.transaction_id) with
    | [] => [mkReconciled t none]
    | ms => ms.map (fun s => mkReconciled t (some s)))

/-- Row update of `calculate_discrepancies`: `actual_settled_amount` copies
`settled_amount`; the discrepancy columns are `np.where`-guarded by
`actual_settled_amount.notna()`. -/
def calculate_discrepancies_row (r : ReconciledRecord) : ReconciledRecord :=
  let actual := r.settled_amount
  let amount := if actual.notna then PVal.sub (PVal.num r.expected_settled_amount) actual
                else PVal.nan
  let percent := if actual.notna then
                   PVal.mul (PVal.div amount (PVal.num r.expected_settled_amount)) (PVal.num 100)
                 else PVal.nan
  { r with actual_settled_amount := actual
           discrepancy_amount := amount
           discrepancy_percent := percent }

/-- Embedding of `calculate_discrepancies`, including its empty-dataframe
early return. -/
def calculate_discrepancies (reconciled_df : List ReconciledRecord) : List ReconciledRecord :=
  if reconciled_df.isEmpty then reconciled_df
  else reconciled_df.map calculate_discrepancies_row

/-- Row update of `detect_timing_anomalies`: settlement latency in whole days
(`.dt.days` floors the timedelta), the per-method threshold, and the anomaly
flag `days_to_settle.notna() & (days_to_settle > settlement_threshold)`. -/
def detect_timing_anomalies_row (r : ReconciledRecord) : ReconciledRecord :=
  let days : PVal := match r.settlement_date with
    | some d => PVal.num (⌊d - r.timestamp⌋ : ℤ)
    | none => PVal.nan
  let threshold := (Config.get_settlement_timing r.payment_method).2.2
  { r with days_to_settle := days
           settlement_threshold := threshold
           timing_anomaly := days.notna && PVal.ltB (PVal.num (threshold : ℚ)) days }

/-- Embedding of `detect_timing_anomalies`, including its empty-dataframe
early return. -/
def detect_timing_anomalies (reconciled_df : List ReconciledRecord) : List ReconciledRecord :=
  if reconciled_df.isEmpty then reconciled_df
  else reconciled_df.map detect_timing_anomalies_row

/-- Embedding of the inner `classify_status` of `classify_settlement_status`,
with the $1 / 1 % tolerances inlined as in the source. -/
def classify_status (row : ReconciledRecord) : String :=
  if row.status = "authorized" ∨ row.status = "declined" then "not_applicable"
  else if row.settlement_id.isNone then
    if row.status = "captured" then "missing"
    else if row.status = "refunded" ∨ row.status = "chargedback" then "missing_expected"
    else "not_applicable"
  else if row.discrepancy_amount.notna then
    if PVal.ltB (PVal.num 1) row.discrepancy_amount.abs &&
       PVal.ltB (PVal.num 1) row.discrepancy_percent.abs then "discrepancy"
    else "matched"
  else "matched"

/-- Embedding of `classify_settlement_status`: apply `classify_status` to
every row and store the result in the `settlement_status` column. -/
def classify_settlement_status (reconciled_df : List ReconciledRecord) : List ReconciledRecord :=
  reconciled_df.map (fun r => { r with settlement_status := classify_status r })

/-- Embedding of `identify_ghost_settlements`: settlements whose identifier
was never attached to a reconciled row, tagged `ghost_settlement`. -/
def identify_ghost_settlements (reconciled_df : List ReconciledRecord)
    (settlements_df : List Settlement) : List GhostSettlement :=
  let matched_settlement_ids := reconciled_df.filterMap (fun r => r.settlement_id)
  let ghost := settlements_df.filter (fun s => !(matched_settlement_ids.contains s.settlement_id))
  ghost.map (fun s => { toSettlement := s, anomaly_type := "ghost_settlement" })

/-- Steps 2–6 of `reconcile_transactions`: expected amounts, matching,
discrepancies, timing anomalies, status classification. -/
def reconcile_pipeline (cfg : Config) (transactions_df : List Transaction)
    (settlements_df : List Settlement) : List ReconciledRecord :=
  classify_settlement_status
    (detect_timing_anomalies
      (calculate_discrepancies
        (match_settlements_exact (calculate_expected_amounts cfg transactions_df)
          settlements_df)))

/-- Decision table of the specification (§4.5), first match wins, exactly as
the claim states it: lifecycle exclusions, then settlement presence, then the
joint $1-and-1 % tolerance test (a missing discrepancy value fails the
strict comparison, as NaN does under IEEE `<`). -/
def classify_settlement_status_spec (row : ReconciledRecord) : String :=
  if row.status = "authorized" ∨ row.status = "declined" then "not_applicable"
  else if row.settlement_id = none then
    if row.status = "captured" then "missing"
    else if row.status = "refunded" ∨ row.status = "chargedback" then "missing_expected"
    else "not_applicable"
  else if PVal.ltB (PVal.num 1) row.discrepancy_amount.abs &&
          PVal.ltB (PVal.num 1) row.discrepancy_percent.abs then "discrepancy"
  else "matched"

theorem classify_status_eq_spec (r : ReconciledRecord) :
    classify_status r = classify_settlement_status_spec r := by
  unfold classify_status classify_settlement_status_spec
  by_cases h1 : r.status = "authorized" ∨ r.status = "declined"
  · simp [h1]
  · by_cases h2 : r.settlement_id = none
    · simp [h1, h2]
    · have h2' : r.settlement_id.isNone = false := by
        cases h : r.settlement_id
        · exact absurd h h2
        · simp
      cases hda : r.discrepancy_amount <;>
        simp [h1, h2, h2', PVal.notna, PVal.isna, PVal.abs, PVal.ltB]

/-- C1: `classify_settlement_status` assigns `settlement_status` to every
reconciled record by the ordered decision table with first match winning:
`authorized`/`declined` → `not_applicable`; else, with no settlement
attached, `captured` → `missing`, `refunded`/`chargedback` →
`missing_expected`, otherwise `not_applicable`; else `discrepancy` exactly
when both `|discrepancy_amount| > 1.0` and `|discrepancy_percent| > 1.0`,
and `matched` in every remaining case. -/
theorem classify_settlement_status_decision_table (reconciled_df : List ReconciledRecord) :
    classify_settlement_status reconciled_df =
      reconciled_df.map (fun r => { r with settlement_status := classify_settlement_status_spec r }) := by
  unfold classify_settlement_status
  simp only [classify_status_eq_spec]

/-- C7: at the default configuration, `calculate_fee` charges
`amount * 2.9/100 + 0.30` on `credit_card` and `debit_card`,
`amount * 1.5/100` on `bank_transfer`, `amount * 3.5/100` on `cash_voucher`,
and falls back to the card schedule on every other payment-method string
instead of raising. -/
theorem calculate_fee_schedule (amount : ℚ) (h : 0 ≤ amount) :
    (calculate_fee Config.default amount "credit_card" = amount * (29/10) / 100 + 3/10) ∧
    (calculate_fee Config.default amount "debit_card" = amount * (29/10) / 100 + 3/10) ∧
    (calculate_fee Config.default amount "bank_transfer" = amount * (3/2) / 100) ∧
    (calculate_fee Config.default amount "cash_voucher" = amount * (7/2) / 100) ∧
    (∀ pm : String, pm ≠ "credit_card" → pm ≠ "debit_card" → pm ≠ "bank_transfer" →
      pm ≠ "cash_voucher" →
      calculate_fee Config.default amount pm = amount * (29/10) / 100 + 3/10) := by
  refine ⟨?_, ?_, ?_, ?_, ?_⟩
  · simp [calculate_fee, calculate_card_fee, Config.default]
  · simp [calculate_fee, calculate_card_fee, Config.default]
  · simp [calculate_fee, calculate_bank_fee, Config.default]
  · simp [calculate_fee, calculate_voucher_fee, Config.default]
  · intro pm h1 h2 h3 h4
    simp [calculate_fee, calculate_card_fee, Config.default, h1, h2, h3, h4]

/-- Witness for C7: the fee for the unrecognised method `paypal` at amount
100 equals the card fee 3.2. -/
theorem calculate_fee_schedule_witness :
    calculate_fee Config.default 100 "paypal" = 100 * (29/10) / 100 + 3/10 :=
  (calculate_fee_schedule 100 (by norm_num)).2.2.2.2 "paypal"
    (by decide) (by decide) (by decide) (by decide)

/-- C9: for a strictly positive amount and any of the four supported payment
methods with their non-zero default fee schedules, the expected settlement is
strictly below the original amount. -/
theorem expected_settlement_lt_amount (amount : ℚ) (h : 0 < amount) (pm : String)
    (hpm : pm = "credit_card" ∨ pm = "debit_card" ∨ pm = "bank_transfer" ∨ pm = "cash_voucher") :
    calculate_expected_settlement Config.default amount pm < amount := by
  unfold calculate_expected_settlement calculate_fee
  rcases hpm with h1 | h1 | h1 | h1 <;> subst h1
  · rw [if_pos (Or.inl rfl)]
    unfold calculate_card_fee Config.default
    linarith
  · rw [if_pos (Or.inr rfl)]
    unfold calculate_card_fee Config.default
    linarith
  · rw [if_neg (by decide), if_pos rfl]
    unfold calculate_bank_fee Config.default
    linarith
  · rw [if_neg (by decide), if_neg (by decide), if_pos rfl]
    unfold calculate_voucher_fee Config.default
    linarith

/-- Witness for C9: a 100-unit bank transfer settles for less than 100. -/
theorem expected_settlement_lt_amount_witness :
    calculate_expected_settlement Config.default 100 "bank_transfer" < 100 :=
  expected_settlement_lt_amount 100 (by norm_num) "bank_transfer" (by tauto)

theorem mem_guarded_map {α : Type} (f : α → α) (df : List α) (r : α) :
    (r ∈ (if df.isEmpty then df else df.map f)) ↔ ∃ a ∈ df, f a = r := by
  cases df with
  | nil => simp
  | cons x xs => exact List.mem_map

/-- Row fixture used by witnesses and counterexamples, mirroring the concrete
dataframes the unit tests build. -/
def mkRow (tid : String) (ts amount : ℚ) (status pm : String) (expected : ℚ)
    (sid : Option String) (sdate : Option ℚ) (settled : PVal) : ReconciledRecord :=
  { transaction_id := tid
    timestamp := ts
    amount := amount
    currency := "BRL"
    status := status
    provider := "PayBridge"
    payment_method := pm
    country := "BR"
    customer_id := "CUST_0001"
    expected_settled_amount := expected
    settlement_id := sid
    settlement_date := sdate
    settled_amount := settled
    actual_settled_amount := PVal.nan
    discrepancy_amount := PVal.nan
    discrepancy_percent := PVal.nan
    days_to_settle := PVal.nan
    settlement_threshold := 0
    timing_anomaly := false
    settlement_status := "" }

/-- C4: every output row of `calculate_discrepancies` with a non-null settled
amount carries `discrepancy_amount = expected_settled_amount -
actual_settled_amount` and `discrepancy_percent = discrepancy_amount /
expected_settled_amount * 100`; on finite values the arithmetic is exact
rational arithmetic (no rounding).  Rows with no settlement attached carry
null in both fields. -/
theorem calculate_discrepancies_contract (df : List ReconciledRecord) (r : ReconciledRecord)
    (hr : r ∈ calculate_discrepancies df) :
    (r.settled_amount.notna = true →
        r.actual_settled_amount = r.settled_amount ∧
        r.discrepancy_amount = PVal.sub (PVal.num r.expected_settled_amount) r.settled_amount ∧
        r.discrepancy_percent =
          PVal.mul (PVal.div r.discrepancy_amount (PVal.num r.expected_settled_amount))
            (PVal.num 100) ∧
        (∀ a : ℚ, r.settled_amount = PVal.num a →
          r.discrepancy_amount = PVal.num (r.expected_settled_amount - a) ∧
          (r.expected_settled_amount ≠ 0 →
            r.discrepancy_percent =
              PVal.num ((r.expected_settled_amount - a) / r.expected_settled_amount * 100)))) ∧
    (r.settled_amount = PVal.nan →
        r.discrepancy_amount = PVal.nan ∧ r.discrepancy_percent = PVal.nan) := by
  rw [calculate_discrepancies, mem_guarded_map] at hr
  obtain ⟨a, _, rfl⟩ := hr
  cases hsa : a.settled_amount <;>
    simp_all [calculate_discrepancies_row, PVal.notna, PVal.isna, PVal.sub, PVal.div, PVal.mul]

/-- Matched row fixture for the C4 witness: expected 100, settled 95. -/
def rec_c4 : ReconciledRecord :=
  mkRow "TXN_001" 0 100 "captured" "credit_card" 100 (some "SET_001") (some 2) (PVal.num 95)

/-- Witness for C4 at the concrete matched row with expected 100 and settled
95: the discrepancy columns carry the exact contract values. -/
theorem calculate_discrepancies_contract_witness :
    (calculate_discrepancies_row rec_c4).actual_settled_amount
        = (calculate_discrepancies_row rec_c4).settled_amount ∧
    (calculate_discrepancies_row rec_c4).discrepancy_amount
        = PVal.sub (PVal.num (calculate_discrepancies_row rec_c4).expected_settled_amount)
            (calculate_discrepancies_row rec_c4).settled_amount ∧
    (calculate_discrepancies_row rec_c4).discrepancy_percent
        = PVal.mul
            (PVal.div (calculate_discrepancies_row rec_c4).discrepancy_amount
              (PVal.num (calculate_discrepancies_row rec_c4).expected_settled_amount))
            (PVal.num 100) ∧
    (calculate_discrepancies_row rec_c4).discrepancy_amount
        = PVal.num ((calculate_discrepancies_row rec_c4).expected_settled_amount - 95) :=
  ⟨((calculate_discrepancies_contract [rec_c4] (calculate_discrepancies_row rec_c4)
      (by simp [calculate_discrepancies])).1 rfl).1,
   ((calculate_discrepancies_contract [rec_c4] (calculate_discrepancies_row rec_c4)
      (by simp [calculate_discrepancies])).1 rfl).2.1,
   ((calculate_discrepancies_contract [rec_c4] (calculate_discrepancies_row rec_c4)
      (by simp [calculate_discrepancies])).1 rfl).2.2.1,
   (((calculate_discrepancies_contract [rec_c4] (calculate_discrepancies_row rec_c4)
      (by simp [calculate_discrepancies])).1 rfl).2.2.2 95 rfl).1⟩

/-- Zero-expected row fixture for C5: expected 0, settled 5, matched. -/
def rec_c5 : ReconciledRecord :=
  mkRow "TXN_005" 0 0 "captured" "bank_transfer" 0 (some "SET_005") (some 2) (PVal.num 5)

/-- C5 counterexample: on a matched row with `expected_settled_amount = 0`
and settled amount 5, `calculate_discrepancies` yields
`discrepancy_percent = -∞`, which is not a null value (`pd.isna` is false on
infinities), contradicting the claim that the result is null/undefined. -/
theorem discrepancy_percent_zero_expected_counterexample :
    (calculate_discrepancies [rec_c5]).map
        (fun r => (r.discrepancy_percent, r.discrepancy_percent.isna))
      = [(PVal.neginf, false)] := by
  norm_num [calculate_discrepancies, calculate_discrepancies_row, rec_c5, mkRow,
    PVal.notna, PVal.isna, PVal.sub, PVal.div, PVal.mul]

/-- C5 as amended: on a row with `expected_settled_amount = 0` and a finite
settled amount `a`, `calculate_discrepancies` raises no error and yields
`discrepancy_percent = -∞` for `a > 0`, `+∞` for `a < 0` (both non-null),
and NaN (null) exactly when `a = 0`. -/
theorem discrepancy_percent_zero_expected (df : List ReconciledRecord) (r : ReconciledRecord)
    (hr : r ∈ calculate_discrepancies df) (h0 : r.expected_settled_amount = 0)
    (a : ℚ) (ha : r.settled_amount = PVal.num a) :
    r.discrepancy_percent =
      (if 0 < a then PVal.neginf else if a < 0 then PVal.inf else PVal.nan) ∧
    r.discrepancy_percent.isna = decide (a = 0) := by
  rw [calculate_discrepancies, mem_guarded_map] at hr
  obtain ⟨b, _, rfl⟩ := hr
  have hb : b.settled_amount = PVal.num a := ha
  have hb0 : b.expected_settled_amount = 0 := h0
  rcases lt_trichotomy a 0 with hc | hc | hc
  · simp_all [calculate_discrepancies_row, PVal.notna, PVal.isna, PVal.sub, PVal.div, PVal.mul,
      zero_sub, neg_pos, neg_lt_zero, hc, hc.not_lt, hc.ne]
  · simp_all [calculate_discrepancies_row, PVal.notna, PVal.isna, PVal.sub, PVal.div, PVal.mul,
      zero_sub, neg_pos, neg_lt_zero, hc]
  · simp_all [calculate_discrepancies_row, PVal.notna, PVal.isna, PVal.sub, PVal.div, PVal.mul,
      zero_sub, neg_pos, neg_lt_zero, hc, hc.not_lt, hc.ne.symm]

/-- Witness for C5 as amended: on the concrete zero-expected row with settled
amount 5 the percent is the first branch (-∞) and is not null. -/
theorem discrepancy_percent_zero_expected_witness :
    (calculate_discrepancies_row rec_c5).discrepancy_percent =
      (if (0:ℚ) < 5 then PVal.neginf else if (5:ℚ) < 0 then PVal.inf else PVal.nan) ∧
    (calculate_discrepancies_row rec_c5).discrepancy_percent.isna = decide ((5:ℚ) = 0) :=
  discrepancy_percent_zero_expected [rec_c5] (calculate_discrepancies_row rec_c5)
    (by simp [calculate_discrepancies]) rfl 5 rfl

/-- Per-method SLA threshold exactly as the claim lists it: 5 days for cards,
10 for bank transfers, 8 for cash vouchers, 7 for anything else. -/
def threshold_days_spec (pm : String) : ℕ :=
  if pm = "credit_card" ∨ pm = "debit_card" then 5
  else if pm = "bank_transfer" then 10
  else if pm = "cash_voucher" then 8
  else 7

theorem get_settlement_timing_threshold (pm : String) :
    (Config.get_settlement_timing pm).2.2 = threshold_days_spec pm := by
  unfold Config.get_settlement_timing threshold_days_spec
  by_cases h1 : pm = "credit_card" <;> by_cases h2 : pm = "debit_card" <;>
    by_cases h3 : pm = "bank_transfer" <;> by_cases h4 : pm = "cash_voucher" <;>
    simp [h1, h2, h3, h4, Config.CARD_SETTLEMENT_THRESHOLD,
      Config.BANK_SETTLEMENT_THRESHOLD, Config.VOUCHER_SETTLEMENT_THRESHOLD]

/-- C8: in the output of `detect_timing_anomalies`, `timing_anomaly` is true
exactly when `days_to_settle` is present (a settlement date exists) and
strictly greater than the threshold configured for the row's payment method
(5 for cards, 10 for bank transfers, 8 for cash vouchers, 7 otherwise). -/
theorem detect_timing_anomalies_flag (df : List ReconciledRecord) (r : ReconciledRecord)
    (hr : r ∈ detect_timing_anomalies df) :
    r.timing_anomaly = true ↔
      ∃ d : ℚ, r.days_to_settle = PVal.num d ∧ ((threshold_days_spec r.payment_method : ℕ) : ℚ) < d := by
  rw [detect_timing_anomalies, mem_guarded_map] at hr
  obtain ⟨a, _, rfl⟩ := hr
  cases hsd : a.settlement_date <;>
    simp [detect_timing_anomalies_row, hsd, PVal.notna, PVal.isna, PVal.ltB,
      get_settlement_timing_threshold]

/-- Late credit-card row fixture for the C8 witness: settled 7 days after the
transaction, against a 5-day threshold. -/
def rec_c8 : ReconciledRecord :=
  mkRow "TXN_008" 0 100 "captured" "credit_card" (484/5) (some "SET_008") (some 7) (PVal.num 95)

/-- Witness for C8: the 7-day credit-card settlement is flagged. -/
theorem detect_timing_anomalies_flag_witness :
    (detect_timing_anomalies_row rec_c8).timing_anomaly = true :=
  (detect_timing_anomalies_flag [rec_c8] (detect_timing_anomalies_row rec_c8)
      (by simp [detect_timing_anomalies])).mpr
    ⟨7, by norm_num [detect_timing_anomalies_row, rec_c8, mkRow],
        by norm_num [detect_timing_anomalies_row, rec_c8, mkRow, threshold_days_spec]⟩

theorem find?_eq_head?_of_filter {α : Type} (p : α → Bool) (l : List α) :
    l.find? p = (l.filter p).head? := by
  induction l with
  | nil => rfl
  | cons x xs ih =>
    cases h : p x
    · rw [List.find?_cons_of_neg xs (by simp [h]), List.filter_cons, if_neg (by simp [h]), ih]
    · rw [List.find?_cons_of_pos xs h, List.filter_cons, if_pos h, List.head?_cons]

theorem filter_tid_short (setts : List Settlement)
    (hdis : List.Pairwise (fun a b => a.transaction_id ≠ b.transaction_id) setts)
    (tid : String) :
    (setts.filter (fun s => s.transaction_id == tid)).length ≤ 1 := by
  induction setts with
  | nil => simp
  | cons x xs ih =>
    rw [List.pairwise_cons] at hdis
    by_cases h : x.transaction_id == tid
    · have hxs : xs.filter (fun s => s.transaction_id == tid) = [] := by
        rw [List.filter_eq_nil_iff]
        intro s hs
        have hne := hdis.1 s hs
        simp only [beq_iff_eq] at h ⊢
        rw [h] at hne
        exact fun hc => hne hc.symm
      simp [List.filter_cons, h, hxs]
    · simpa [List.filter_cons, h] using ih hdis.2

theorem match_row_eq (setts : List Settlement)
    (hdis : List.Pairwise (fun a b => a.transaction_id ≠ b.transaction_id) setts)
    (t : ExpTransaction) :
    (match setts.filter (fun s => s.transaction_id == t.transaction_id) with
      | [] => [mkReconciled t none]
      | ms => ms.map (fun s => mkReconciled t (some s))) =
    [mkReconciled t (setts.find? (fun s => s.transaction_id == t.transaction_id))] := by
  rw [find?_eq_head?_of_filter]
  have hlen := filter_tid_short setts hdis t.transaction_id
  cases hms : setts.filter (fun s => s.transaction_id == t.transaction_id) with
  | nil => rfl
  | cons s ss =>
    rw [hms] at hlen
    have hss : ss = [] := by
      cases ss with
      | nil => rfl
      | cons y ys => simp at hlen
    subst hss
    rfl

theorem match_eq_map (txs : List ExpTransaction) (setts : List Settlement)
    (hdis : List.Pairwise (fun a b => a.transaction_id ≠ b.transaction_id) setts) :
    match_settlements_exact txs setts =
      txs.map (fun t =>
        mkReconciled t (setts.find? (fun s => s.transaction_id == t.transaction_id))) := by
  unfold match_settlements_exact
  induction txs with
  | nil => rfl
  | cons t ts ih =>
    rw [List.flatMap_cons, ih, match_row_eq setts hdis t, List.map_cons, List.singleton_append]

theorem match_f_props (setts : List Settlement) (t : ExpTransaction) :
    (mkReconciled t (setts.find? (fun s => s.transaction_id == t.transaction_id))).transaction_id
        = t.transaction_id ∧
    ((mkReconciled t
        (setts.find? (fun s => s.transaction_id == t.transaction_id))).settlement_id = none ↔
      ∀ s ∈ setts, s.transaction_id ≠ t.transaction_id) ∧
    ((∀ s ∈ setts, s.transaction_id ≠ t.transaction_id) →
      (mkReconciled t
        (setts.find? (fun s => s.transaction_id == t.transaction_id))).settlement_id = none ∧
      (mkReconciled t
        (setts.find? (fun s => s.transaction_id == t.transaction_id))).settlement_date = none ∧
      (mkReconciled t
        (setts.find? (fun s => s.transaction_id == t.transaction_id))).settled_amount
          = PVal.nan) := by
  have hnone : (setts.find? (fun s => s.transaction_id == t.transaction_id) = none) ↔
      ∀ s ∈ setts, s.transaction_id ≠ t.transaction_id := by
    rw [List.find?_eq_none]
    simp
  refine ⟨rfl, ?_, ?_⟩
  · rw [← hnone]
    cases setts.find? (fun s => s.transaction_id == t.transaction_id) <;> simp [mkReconciled]
  · intro hno
    rw [← hnone] at hno
    rw [hno]
    exact ⟨rfl, rfl, rfl⟩

/-- C2: when at most one settlement references any transaction identifier,
the matcher yields exactly one reconciled record per input transaction, in
order, with the transaction's identifier, and the settlement-side columns
are null exactly when no settlement references that identifier. -/
theorem match_settlements_exact_cardinality (txs : List ExpTransaction) (setts : List Settlement)
    (hdis : List.Pairwise (fun a b => a.transaction_id ≠ b.transaction_id) setts) :
    ∃ f : ExpTransaction → ReconciledRecord,
      match_settlements_exact txs setts = txs.map f ∧
      (match_settlements_exact txs setts).length = txs.length ∧
      ∀ t : ExpTransaction,
        (f t).transaction_id = t.transaction_id ∧
        ((f t).settlement_id = none ↔ ∀ s ∈ setts, s.transaction_id ≠ t.transaction_id) ∧
        ((∀ s ∈ setts, s.transaction_id ≠ t.transaction_id) →
          (f t).settlement_id = none ∧ (f t).settlement_date = none ∧
          (f t).settled_amount = PVal.nan) := by
  refine ⟨fun t => mkReconciled t (setts.find? (fun s => s.transaction_id == t.transaction_id)),
    match_eq_map txs setts hdis, ?_, fun t => match_f_props setts t⟩
  rw [match_eq_map txs setts hdis, List.length_map]

/-- Transaction fixture for the C2 witness. -/
def et_c2 : ExpTransaction :=
  ⟨⟨"TXN_001", 0, 100, "BRL", "captured", "PayBridge", "credit_card", "BR", "CUST_0001"⟩, 484/5⟩

/-- Settlement fixture for the C2 witness, referencing `TXN_001`. -/
def st_c2 : Settlement := ⟨"SET_001", "TXN_001", 2, PVal.num (484/5), "BRL", "PayBridge"⟩

/-- Witness for C2: one transaction joined with its single settlement yields
exactly one reconciled record. -/
theorem match_settlements_exact_cardinality_witness :
    (match_settlements_exact [et_c2] [st_c2]).length = 1 := by
  obtain ⟨f, -, hlen, -⟩ :=
    match_settlements_exact_cardinality [et_c2] [st_c2] (by simp)
  simpa using hlen

theorem filterMap_sid_guarded (f : ReconciledRecord → ReconciledRecord)
    (hf : ∀ r, (f r).settlement_id = r.settlement_id) (df : List ReconciledRecord) :
    (if df.isEmpty then df else df.map f).filterMap (fun r => r.settlement_id) =
      df.filterMap (fun r => r.settlement_id) := by
  cases df with
  | nil => rfl
  | cons x xs =>
    rw [if_neg (by simp), List.filterMap_map]
    congr 1
    funext r
    exact hf r

theorem calc_row_sid (r : ReconciledRecord) :
    (calculate_discrepancies_row r).settlement_id = r.settlement_id := rfl

theorem detect_row_sid (r : ReconciledRecord) :
    (detect_timing_anomalies_row r).settlement_id = r.settlement_id := rfl

theorem pipeline_sids (cfg : Config) (txs : List Transaction) (setts : List Settlement) :
    (reconcile_pipeline cfg txs setts).filterMap (fun r => r.settlement_id) =
      (match_settlements_exact (calculate_expected_amounts cfg txs) setts).filterMap
        (fun r => r.settlement_id) := by
  unfold reconcile_pipeline classify_settlement_status
  rw [List.filterMap_map]
  have h1 : ((fun r => r.settlement_id) ∘
      fun r => { r with settlement_status := classify_status r }) =
      (fun r : ReconciledRecord => r.settlement_id) := rfl
  rw [h1, calculate_discrepancies, detect_timing_anomalies,
    filterMap_sid_guarded detect_timing_anomalies_row detect_row_sid,
    filterMap_sid_guarded calculate_discrepancies_row calc_row_sid]

theorem match_sid_mem (txs : List ExpTransaction) (setts : List Settlement) (sid : String)
    (h : sid ∈ (match_settlements_exact txs setts).filterMap (fun r => r.settlement_id)) :
    sid ∈ setts.map (fun s => s.settlement_id) := by
  rw [List.mem_filterMap] at h
  obtain ⟨r, hr, hsid⟩ := h
  unfold match_settlements_exact at hr
  rw [List.mem_flatMap] at hr
  obtain ⟨t, -, hr⟩ := hr
  cases hms : setts.filter (fun s => s.transaction_id == t.transaction_id) with
  | nil =>
    rw [hms] at hr
    simp only [List.mem_singleton] at hr
    subst hr
    simp [mkReconciled] at hsid
  | cons s ss =>
    rw [hms] at hr
    rw [List.mem_map] at hr
    obtain ⟨s', hs', rfl⟩ := hr
    have hsid' : s'.settlement_id = sid := by simpa [mkReconciled] using hsid
    have hmem : s' ∈ setts := List.mem_of_mem_filter (hms ▸ hs')
    rw [List.mem_map]
    exact ⟨s', hmem, hsid'⟩

theorem ghost_mem (df : List ReconciledRecord) (setts : List Settlement) (sid : String) :
    sid ∈ (identify_ghost_settlements df setts).map (fun g => g.settlement_id) ↔
      ∃ s ∈ setts, s.settlement_id = sid ∧
        ¬ sid ∈ df.filterMap (fun r => r.settlement_id) := by
  unfold identify_ghost_settlements
  simp only [List.map_map, List.mem_map, Function.comp, List.mem_filter]
  constructor
  · rintro ⟨s, ⟨hs, hc⟩, rfl⟩
    refine ⟨s, hs, rfl, ?_⟩
    simpa using hc
  · rintro ⟨s, hs, rfl, hnot⟩
    refine ⟨s, ⟨hs, ?_⟩, rfl⟩
    simpa using hnot

/-- C3: for every input batch, the settlement identifiers matched to a
reconciled record and the identifiers reported by
`identify_ghost_settlements` are disjoint, their union is the set of all
settlement identifiers of the input, and every ghost record is tagged
`anomaly_type = "ghost_settlement"`. -/
theorem ghost_settlement_partition (cfg : Config) (txs : List Transaction)
    (setts : List Settlement) :
    (∀ sid : String,
      ¬(sid ∈ (reconcile_pipeline cfg txs setts).filterMap (fun r => r.settlement_id) ∧
        sid ∈ (identify_ghost_settlements (reconcile_pipeline cfg txs setts) setts).map
            (fun g => g.settlement_id))) ∧
    (∀ sid : String,
      sid ∈ setts.map (fun s => s.settlement_id) ↔
        sid ∈ (reconcile_pipeline cfg txs setts).filterMap (fun r => r.settlement_id) ∨
        sid ∈ (identify_ghost_settlements (reconcile_pipeline cfg txs setts) setts).map
            (fun g => g.settlement_id)) ∧
    (∀ g ∈ identify_ghost_settlements (reconcile_pipeline cfg txs setts) setts,
      g.anomaly_type = "ghost_settlement") := by
  refine ⟨?_, ?_, ?_⟩
  · rintro sid ⟨h1, h2⟩
    rw [ghost_mem] at h2
    obtain ⟨s, -, rfl, hnot⟩ := h2
    exact hnot h1
  · intro sid
    constructor
    · intro h
      rw [List.mem_map] at h
      obtain ⟨s, hs, rfl⟩ := h
      by_cases hm : s.settlement_id ∈
          (reconcile_pipeline cfg txs setts).filterMap (fun r => r.settlement_id)
      · exact Or.inl hm
      · exact Or.inr ((ghost_mem _ _ _).mpr ⟨s, hs, rfl, hm⟩)
    · rintro (h | h)
      · exact match_sid_mem _ _ sid (pipeline_sids cfg txs setts ▸ h)
      · rw [ghost_mem] at h
        obtain ⟨s, hs, rfl, -⟩ := h
        exact List.mem_map.mpr ⟨s, hs, rfl⟩
  · intro g hg
    unfold identify_ghost_settlements at hg
    rw [List.mem_map] at hg
    obtain ⟨s, -, rfl⟩ := hg
    rfl

/-- Ghost settlement fixture for the C3 witness: references a transaction
that does not exist. -/
def st_c3 : Settlement := ⟨"SET_GHOST", "TXN_NONE", 2, PVal.num 50, "BRL", "PayBridge"⟩

/-- Witness for C3: with no transactions and one orphaned settlement, the
partition law instantiated at its identifier. -/
theorem ghost_settlement_partition_witness :
    "SET_GHOST" ∈ ([st_c3] : List Settlement).map (fun s => s.settlement_id) ↔
      "SET_GHOST" ∈ (reconcile_pipeline Config.default [] [st_c3]).filterMap
          (fun r => r.settlement_id) ∨
      "SET_GHOST" ∈ (identify_ghost_settlements
          (reconcile_pipeline Config.default [] [st_c3]) [st_c3]).map
          (fun g => g.settlement_id) :=
  (ghost_settlement_partition Config.default [] [st_c3]).2.1 "SET_GHOST"

theorem match_settlements_mem (txs : List ExpTransaction) (setts : List Settlement)
    (r : ReconciledRecord) (hr : r ∈ match_settlements_exact txs setts) :
    (r.settlement_id = none ∧ r.settled_amount = PVal.nan) ∨
    (∃ s ∈ setts, r.settlement_id = some s.settlement_id ∧
      r.settled_amount = s.settled_amount) := by
  unfold match_settlements_exact at hr
  rw [List.mem_flatMap] at hr
  obtain ⟨t, -, hr⟩ := hr
  cases hms : setts.filter (fun s => s.transaction_id == t.transaction_id) with
  | nil =>
    rw [hms] at hr
    simp only [List.mem_singleton] at hr
    subst hr
    exact Or.inl ⟨rfl, rfl⟩
  | cons s ss =>
    rw [hms] at hr
    rw [List.mem_map] at hr
    obtain ⟨s', hs', rfl⟩ := hr
    exact Or.inr ⟨s', List.mem_of_mem_filter (hms ▸ hs'), rfl, rfl⟩

theorem mem_pipeline (cfg : Config) (txs : List Transaction) (setts : List Settlement)
    (r : ReconciledRecord) (hr : r ∈ reconcile_pipeline cfg txs setts) :
    ∃ r0 ∈ match_settlements_exact (calculate_expected_amounts cfg txs) setts,
      r = { detect_timing_anomalies_row (calculate_discrepancies_row r0) with
            settlement_status :=
              classify_status (detect_timing_anomalies_row (calculate_discrepancies_row r0)) } := by
  unfold reconcile_pipeline classify_settlement_status at hr
  rw [List.mem_map] at hr
  obtain ⟨r2, hr2, rfl⟩ := hr
  rw [detect_timing_anomalies, mem_guarded_map] at hr2
  obtain ⟨r1, hr1, rfl⟩ := hr2
  rw [calculate_discrepancies, mem_guarded_map] at hr1
  obtain ⟨r0, hr0, rfl⟩ := hr1
  exact ⟨r0, hr0, rfl⟩

theorem notna_iff_ne_nan (v : PVal) : v.notna = true ↔ v ≠ PVal.nan := by
  cases v <;> simp [PVal.notna, PVal.isna]

theorem calc_row_disc_notna (r : ReconciledRecord) :
    (calculate_discrepancies_row r).discrepancy_amount.notna = r.settled_amount.notna := by
  unfold calculate_discrepancies_row
  cases h : r.settled_amount <;> simp [h, PVal.notna, PVal.isna, PVal.sub]

/-- C6 as amended: in the engine's output, `discrepancy_amount` is non-null
iff the settled amount is non-null; provided every input settlement carries a
non-null settled amount, that is equivalent to `settlement_id` being
non-null.  (Without that proviso the claim fails: a matched settlement whose
`settled_amount` cell is missing has a non-null `settlement_id` and a null
`discrepancy_amount`, see the counterexample.) -/
theorem discrepancy_nonnull_iff_settlement (cfg : Config) (txs : List Transaction)
    (setts : List Settlement) (hs : ∀ s ∈ setts, s.settled_amount ≠ PVal.nan)
    (r : ReconciledRecord) (hr : r ∈ reconcile_pipeline cfg txs setts) :
    r.discrepancy_amount.notna = true ↔ r.settlement_id.isSome = true := by
  obtain ⟨r0, hr0, rfl⟩ := mem_pipeline cfg txs setts r hr
  show (calculate_discrepancies_row r0).discrepancy_amount.notna = true ↔
      r0.settlement_id.isSome = true
  rw [calc_row_disc_notna]
  rcases match_settlements_mem _ _ r0 hr0 with ⟨h1, h2⟩ | ⟨s, hmem, h1, h2⟩
  · rw [h1, h2]
    simp [PVal.notna, PVal.isna]
  · rw [h1, h2]
    simp only [Option.isSome_some, iff_true]
    rw [notna_iff_ne_nan]
    exact hs s hmem

/-- Captured transaction fixture for the C6 counterexample. -/
def tx_c6 : Transaction :=
  ⟨"TXN_001", 0, 100, "BRL", "captured", "PayBridge", "credit_card", "BR", "CUST_0001"⟩

/-- Settlement fixture for the C6 counterexample: matches `TXN_001` but its
`settled_amount` cell is missing. -/
def st_c6 : Settlement := ⟨"SET_001", "TXN_001", 2, PVal.nan, "BRL", "PayBridge"⟩

/-- C6 counterexample: a matched settlement with a missing `settled_amount`
produces a record whose `settlement_id` is non-null while
`discrepancy_amount` is null, refuting the claimed equivalence. -/
theorem discrepancy_nonnull_iff_settlement_counterexample :
    (reconcile_pipeline Config.default [tx_c6] [st_c6]).map
        (fun r => (r.settlement_id, r.discrepancy_amount, r.discrepancy_amount.isna)) =
      [(some "SET_001", PVal.nan, true)] := by
  simp [reconcile_pipeline, calculate_expected_amounts, match_settlements_exact,
    calculate_discrepancies, calculate_discrepancies_row, detect_timing_anomalies,
    detect_timing_anomalies_row, classify_settlement_status, mkReconciled, tx_c6, st_c6,
    PVal.notna, PVal.isna]

/-- Transaction fixture for the C6 witness. -/
def tx_c6w : Transaction :=
  ⟨"TXN_002", 0, 100, "BRL", "captured", "PayBridge", "credit_card", "BR", "CUST_0002"⟩

/-- Settlement fixture for the C6 witness, with a present settled amount. -/
def st_c6w : Settlement := ⟨"SET_002", "TXN_002", 2, PVal.num (484/5), "BRL", "PayBridge"⟩

/-- The single record the pipeline produces for the C6 witness inputs. -/
def rec_c6w : ReconciledRecord :=
  { detect_timing_anomalies_row (calculate_discrepancies_row
      (mkReconciled
        ⟨tx_c6w, calculate_expected_settlement Config.default tx_c6w.amount tx_c6w.payment_method⟩
        (some st_c6w))) with
    settlement_status :=
      classify_status (detect_timing_anomalies_row (calculate_discrepancies_row
        (mkReconciled
          ⟨tx_c6w,
           calculate_expected_settlement Config.default tx_c6w.amount tx_c6w.payment_method⟩
          (some st_c6w)))) }

/-- Witness for C6 as amended, at a one-transaction batch whose settlement
carries an amount. -/
theorem discrepancy_nonnull_iff_settlement_witness :
    rec_c6w.discrepancy_amount.notna = true ↔ rec_c6w.settlement_id.isSome = true :=
  discrepancy_nonnull_iff_settlement Config.default [tx_c6w] [st_c6w]
    (by
      intro s hs
      rw [List.mem_singleton] at hs
      subst hs
      simp [st_c6w])
    rec_c6w (List.Mem.head _)

/-- C10: a record in lifecycle status `captured`, `refunded` or
`chargedback` that has a settlement attached (`settlement_id` non-null) but
a missing settled amount ends up with a null `discrepancy_amount`, and
`classify_settlement_status` silently skips the tolerance check and
classifies it `matched` — never `discrepancy` or `missing`. -/
theorem null_settled_amount_classified_matched (cfg : Config) (txs : List Transaction)
    (setts : List Settlement) (r : ReconciledRecord) (hr : r ∈ reconcile_pipeline cfg txs setts)
    (hst : r.status = "captured" ∨ r.status = "refunded" ∨ r.status = "chargedback")
    (hsid : r.settlement_id.isSome = true) (hsa : r.settled_amount = PVal.nan) :
    r.discrepancy_amount = PVal.nan ∧ r.settlement_status = "matched" := by
  obtain ⟨r0, hr0, rfl⟩ := mem_pipeline cfg txs setts r hr
  have hst0 : r0.status = "captured" ∨ r0.status = "refunded" ∨ r0.status = "chargedback" := hst
  have hsid0 : r0.settlement_id.isSome = true := hsid
  have hsa0 : r0.settled_amount = PVal.nan := hsa
  have hdisc : (calculate_discrepancies_row r0).discrepancy_amount = PVal.nan := by
    unfold calculate_discrepancies_row
    simp [hsa0, PVal.notna, PVal.isna]
  constructor
  · exact hdisc
  · show classify_status (detect_timing_anomalies_row (calculate_discrepancies_row r0))
        = "matched"
    have hnostatus :
        ¬((detect_timing_anomalies_row (calculate_discrepancies_row r0)).status = "authorized" ∨
          (detect_timing_anomalies_row (calculate_discrepancies_row r0)).status = "declined") := by
      show ¬(r0.status = "authorized" ∨ r0.status = "declined")
      rcases hst0 with h | h | h <;> rw [h] <;> decide
    have hisnone :
        (detect_timing_anomalies_row (calculate_discrepancies_row r0)).settlement_id.isNone
          = false := by
      show r0.settlement_id.isNone = false
      cases hx : r0.settlement_id with
      | none => rw [hx] at hsid0; exact absurd hsid0 (by simp)
      | some v => simp
    have hnotna :
        (detect_timing_anomalies_row (calculate_discrepancies_row r0)).discrepancy_amount.notna
          = false := by
      show (calculate_discrepancies_row r0).discrepancy_amount.notna = false
      rw [hdisc]
      rfl
    unfold classify_status
    simp [hnostatus, hisnone, hnotna]

/-- Captured transaction fixture for the C10 witness. -/
def tx_c10 : Transaction :=
  ⟨"TXN_010", 0, 100, "BRL", "captured", "PayBridge", "credit_card", "BR", "CUST_0010"⟩

/-- Settlement fixture for the C10 witness: attached to `TXN_010` with a
missing settled amount. -/
def st_c10 : Settlement := ⟨"SET_010", "TXN_010", 2, PVal.nan, "BRL", "PayBridge"⟩

/-- The single record the pipeline produces for the C10 witness inputs. -/
def rec_c10 : ReconciledRecord :=
  { detect_timing_anomalies_row (calculate_discrepancies_row
      (mkReconciled
        ⟨tx_c10, calculate_expected_settlement Config.default tx_c10.amount tx_c10.payment_method⟩
        (some st_c10))) with
    settlement_status :=
      classify_status (detect_timing_anomalies_row (calculate_discrepancies_row
        (mkReconciled
          ⟨tx_c10,
           calculate_expected_settlement Config.default tx_c10.amount tx_c10.payment_method⟩
          (some st_c10)))) }

/-- Witness for C10: the captured transaction matched by an amount-less
settlement is classified `matched` with a null discrepancy. -/
theorem null_settled_amount_classified_matched_witness :
    rec_c10.discrepancy_amount = PVal.nan ∧ rec_c10.settlement_status = "matched" :=
  null_settled_amount_classified_matched Config.default [tx_c10] [st_c10] rec_c10
    (List.Mem.head _) (Or.inl rfl) rfl rfl
